import Mathlib

/-!
Verification of the exhibits_stub HTTP service (src/main.go).

The Go program serves two static JSON datasets over HTTP with optional
filtering by an identifier list.  This file shallowly embeds the data
model, the JSON encoding and decoding of the record types, the two
request handlers, and the file-locating helper, and proves the claims of
the specification against them.

Modelling conventions:
  * JSON documents are the inductive `Json` below.  A number written in
    integer form is `Json.int`; any other numeric literal is
    `Json.num` carrying a `GoFloat`, an abstract representation of a
    finite IEEE-754 double (Go's encoder prints doubles in the shortest
    form that reads back to the same double, so at the level of decoded
    values a JSON number is faithfully modelled by the double itself).
  * Go slices distinguish nil from empty: `GoSlice a = Option (List a)`
    with `none` playing nil.  Go's encoder writes a nil slice as JSON
    null and a non-nil slice as an array, which the model mirrors.
  * `json.Unmarshal` into a struct assigns fields from the object's
    entries by key (last binding wins), leaves absent fields at their
    zero value, treats JSON null as a no-op, and fails on a type
    mismatch; the decoders below follow those rules.
  * Handlers are pure functions from the outcome of the file lookup and
    read (`ReadResult`) and the already-extracted query-parameter value
    to an `HttpResponse`.  `net/url`'s `Query().Get` yields `""` both
    for an absent and for an empty parameter, so the parameter is a
    plain `String` with `""` meaning absent-or-empty.
-/

/-- Abstract finite IEEE-754 double, written `mantissa * 2 ^ exponent`.
Go's `encoding/json` prints a float64 in the shortest decimal form that
parses back to the identical double, so encode-then-decode is the
identity on doubles; the model records exactly that identity. -/
structure GoFloat where
  mantissa : Int
  exponent : Int
deriving DecidableEq

/-- A JSON document. -/
inductive Json where
  | null
  | bool (b : Bool)
  | int (n : Int)
  | num (f : GoFloat)
  | str (s : String)
  | arr (elems : List Json)
  | obj (fields : List (String × Json))

/-- A Go slice: `none` is the nil slice, `some l` a non-nil slice with
elements `l`.  Iteration treats nil as empty. -/
abbrev GoSlice (α : Type) := Option (List α)

/-- The elements a `range` loop sees: nil iterates as empty. -/
def GoSlice.elems : GoSlice α → List α
  | none => []
  | some l => l

/-- Last binding of a key in a JSON object, as Go's decoder uses it
(when a key repeats, the last occurrence wins). -/
def getField : List (String × Json) → String → Option Json
  | [], _ => none
  | (k, v) :: rest, key =>
    match getField rest key with
    | some r => some r
    | none => if k = key then some v else none

/-- Decode one struct field: an absent key behaves like JSON null
(the field keeps its zero value). -/
def jfield (fs : List (String × Json)) (key : String) (dec : Json → Option α) : Option α :=
  match getField fs key with
  | some v => dec v
  | none => dec .null

/-- Decode a value that Go reads into a struct: an object supplies
bindings, null supplies none (all fields zero), anything else fails. -/
def decObj (body : List (String × Json) → Option α) : Json → Option α
  | .obj fs => body fs
  | .null => body []
  | _ => none

/-- Decode into a Go `string`: null is a no-op (zero value ""). -/
def decStr : Json → Option String
  | .str s => some s
  | .null => some ""
  | _ => none

/-- Decode into a Go `int`: numbers in integer form only. -/
def decInt : Json → Option Int
  | .int n => some n
  | .null => some 0
  | _ => none

/-- Decode into a Go `float64`: any numeric literal is accepted. -/
def decFloat : Json → Option GoFloat
  | .num f => some f
  | .int n => some ⟨n, 0⟩
  | .null => some ⟨0, 0⟩
  | _ => none

/-- Decode into a Go `*string`: null gives the nil pointer. -/
def decOptStr : Json → Option (Option String)
  | .str s => some (some s)
  | .null => some none
  | _ => none

/-- Decode into a Go `interface\x7b\x7d` value: every document is
accepted as itself. -/
def decAny : Json → Option Json := fun j => some j

/-- Decode every element of a JSON array. -/
def decList (dec : Json → Option α) : List Json → Option (List α)
  | [] => some []
  | j :: js => do
    let a ← dec j
    let as ← decList dec js
    pure (a :: as)

/-- Decode into a Go slice: null gives the nil slice, an array a
non-nil slice, anything else fails. -/
def decSlice (dec : Json → Option α) : Json → Option (GoSlice α)
  | .null => some none
  | .arr l => (decList dec l).bind fun xs => some (some xs)
  | _ => none

/-- Encode a Go slice: nil becomes JSON null. -/
def encSlice (enc : α → Json) : GoSlice α → Json
  | none => .null
  | some l => .arr (l.map enc)

/-- Encode a Go `*string`. -/
def encOptStr : Option String → Json
  | none => .null
  | some s => .str s

/-- The source's `LocalizedString` struct. -/
structure LocalizedString where
  En : String
  Ar : String
deriving DecidableEq

def encLS (x : LocalizedString) : Json :=
  .obj [("en", .str x.En), ("ar", .str x.Ar)]

def decLS : Json → Option LocalizedString :=
  decObj fun fs => do
    let en ← jfield fs "en" decStr
    let ar ← jfield fs "ar" decStr
    pure ⟨en, ar⟩

/-- The source's `Coordinates` struct. -/
structure Coordinates where
  Latitude : GoFloat
  Longitude : GoFloat
deriving DecidableEq

def encCoords (c : Coordinates) : Json :=
  .obj [("latitude", .num c.Latitude), ("longitude", .num c.Longitude)]

def decCoords : Json → Option Coordinates :=
  decObj fun fs => do
    let la ← jfield fs "latitude" decFloat
    let lo ← jfield fs "longitude" decFloat
    pure ⟨la, lo⟩

/-- The source's `ExhibitDTO` struct (field `Type` is spelled `Type'`
because `Type` is reserved in Lean). -/
structure ExhibitDTO where
  ID : Int
  SiteName : LocalizedString
  SiteBriefDescription : LocalizedString
  NameEn : String
  NameAr : String
  Name : LocalizedString
  BriefDescription : LocalizedString
  GeneratedDescription : LocalizedString
  ArtistDescription : LocalizedString
  ArtistName : LocalizedString
  LocationDescription : LocalizedString
  Type' : String
  ImageURL : String
  VideoURL : String
  RelevantLink : String
  AudioGuideLink : Option String
  LocationURL : String
  Tags : GoSlice String
  Coords : Coordinates
  Ownership : String
  RecreationLevel : String

def encodeExhibitDTO (e : ExhibitDTO) : Json :=
  .obj [("exhibit_id", .int e.ID),
        ("site_name", encLS e.SiteName),
        ("site_brief_description", encLS e.SiteBriefDescription),
        ("name_en", .str e.NameEn),
        ("name_ar", .str e.NameAr),
        ("name", encLS e.Name),
        ("brief_description", encLS e.BriefDescription),
        ("generated_description", encLS e.GeneratedDescription),
        ("artist_description", encLS e.ArtistDescription),
        ("artist_name", encLS e.ArtistName),
        ("location_description", encLS e.LocationDescription),
        ("type", .str e.Type'),
        ("image_url", .str e.ImageURL),
        ("video_url", .str e.VideoURL),
        ("relevant_link", .str e.RelevantLink),
        ("audio_guide_link", encOptStr e.AudioGuideLink),
        ("location_url", .str e.LocationURL),
        ("tags", encSlice Json.str e.Tags),
        ("coords", encCoords e.Coords),
        ("ownership", .str e.Ownership),
        ("recreation_level", .str e.RecreationLevel)]

def decodeExhibitDTO : Json → Option ExhibitDTO :=
  decObj fun fs =>
    match jfield fs "exhibit_id" decInt with
    | none => none
    | some id =>
    match jfield fs "site_name" decLS with
    | none => none
    | some sn =>
    match jfield fs "site_brief_description" decLS with
    | none => none
    | some sbd =>
    match jfield fs "name_en" decStr with
    | none => none
    | some ne =>
    match jfield fs "name_ar" decStr with
    | none => none
    | some na =>
    match jfield fs "name" decLS with
    | none => none
    | some nm =>
    match jfield fs "brief_description" decLS with
    | none => none
    | some bd =>
    match jfield fs "generated_description" decLS with
    | none => none
    | some gd =>
    match jfield fs "artist_description" decLS with
    | none => none
    | some ad =>
    match jfield fs "artist_name" decLS with
    | none => none
    | some an =>
    match jfield fs "location_description" decLS with
    | none => none
    | some ld =>
    match jfield fs "type" decStr with
    | none => none
    | some ty =>
    match jfield fs "image_url" decStr with
    | none => none
    | some iu =>
    match jfield fs "video_url" decStr with
    | none => none
    | some vu =>
    match jfield fs "relevant_link" decStr with
    | none => none
    | some rl =>
    match jfield fs "audio_guide_link" decOptStr with
    | none => none
    | some agl =>
    match jfield fs "location_url" decStr with
    | none => none
    | some lu =>
    match jfield fs "tags" (decSlice decStr) with
    | none => none
    | some tg =>
    match jfield fs "coords" decCoords with
    | none => none
    | some co =>
    match jfield fs "ownership" decStr with
    | none => none
    | some ow =>
    match jfield fs "recreation_level" decStr with
    | none => none
    | some rv =>
      some ⟨id, sn, sbd, ne, na, nm, bd, gd, ad, an, ld, ty, iu, vu, rl, agl, lu, tg, co, ow, rv⟩

/-- The exhibits data file: a bare JSON array of exhibit records. -/
def decodeExhibits : Json → Option (GoSlice ExhibitDTO) :=
  decSlice decodeExhibitDTO

def encodeExhibits : GoSlice ExhibitDTO → Json :=
  encSlice encodeExhibitDTO

/-- The source's `Museum` struct. -/
structure Museum where
  Slug : String
  Label : String
  LabelEN : String
  LabelAR : String

def encMuseum (m : Museum) : Json :=
  .obj [("slug", .str m.Slug), ("label", .str m.Label),
        ("labelEN", .str m.LabelEN), ("labelAR", .str m.LabelAR)]

def decMuseum : Json → Option Museum :=
  decObj fun fs =>
    match jfield fs "slug" decStr with
    | none => none
    | some sl =>
    match jfield fs "label" decStr with
    | none => none
    | some lb =>
    match jfield fs "labelEN" decStr with
    | none => none
    | some le =>
    match jfield fs "labelAR" decStr with
    | none => none
    | some la =>
      some ⟨sl, lb, le, la⟩

/-- The source's `Weekday` struct. -/
structure Weekday where
  Number : Int
  Name : String

def encWeekday (w : Weekday) : Json :=
  .obj [("number", .int w.Number), ("name", .str w.Name)]

def decWeekday : Json → Option Weekday :=
  decObj fun fs =>
    match jfield fs "number" decInt with
    | none => none
    | some n =>
    match jfield fs "name" decStr with
    | none => none
    | some m =>
      some ⟨n, m⟩

/-- The source's `OpeningTime` struct. -/
structure OpeningTime where
  OpeningAt : String
  ClosingAt : String
  Weekday : Weekday

def encOpeningTime (t : OpeningTime) : Json :=
  .obj [("openingAt", .str t.OpeningAt), ("closingAt", .str t.ClosingAt),
        ("weekday", encWeekday t.Weekday)]

def decOpeningTime : Json → Option OpeningTime :=
  decObj fun fs =>
    match jfield fs "openingAt" decStr with
    | none => none
    | some oa =>
    match jfield fs "closingAt" decStr with
    | none => none
    | some ca =>
    match jfield fs "weekday" decWeekday with
    | none => none
    | some w =>
      some ⟨oa, ca, w⟩

/-- The source's `FocalPoint` struct. -/
structure FocalPoint where
  X : Int
  Y : Int

def encFocalPoint (p : FocalPoint) : Json :=
  .obj [("x", .int p.X), ("y", .int p.Y)]

def decFocalPoint : Json → Option FocalPoint :=
  decObj fun fs =>
    match jfield fs "x" decInt with
    | none => none
    | some x =>
    match jfield fs "y" decInt with
    | none => none
    | some y =>
      some ⟨x, y⟩

/-- The source's `ObjectImage` struct. -/
structure ObjectImage where
  URL : String
  Width : Int
  Height : Int
  FocalPoint : FocalPoint
  AltTextEN : String
  AltTextAR : String
  CreditLineEN : String
  CreditLineAR : String

def encObjectImage (i : ObjectImage) : Json :=
  .obj [("url", .str i.URL), ("width", .int i.Width), ("height", .int i.Height),
        ("focalPoint", encFocalPoint i.FocalPoint),
        ("altTextEN", .str i.AltTextEN), ("altTextAR", .str i.AltTextAR),
        ("creditLineEN", .str i.CreditLineEN), ("creditLineAR", .str i.CreditLineAR)]

def decObjectImage : Json → Option ObjectImage :=
  decObj fun fs =>
    match jfield fs "url" decStr with
    | none => none
    | some u =>
    match jfield fs "width" decInt with
    | none => none
    | some w =>
    match jfield fs "height" decInt with
    | none => none
    | some h =>
    match jfield fs "focalPoint" decFocalPoint with
    | none => none
    | some fp =>
    match jfield fs "altTextEN" decStr with
    | none => none
    | some ae =>
    match jfield fs "altTextAR" decStr with
    | none => none
    | some aa =>
    match jfield fs "creditLineEN" decStr with
    | none => none
    | some ce =>
    match jfield fs "creditLineAR" decStr with
    | none => none
    | some ca =>
      some ⟨u, w, h, fp, ae, aa, ce, ca⟩

/-- The source's `ObjectImages` struct. -/
structure ObjectImages where
  Original : GoSlice ObjectImage
  Card : GoSlice ObjectImage

def encObjectImages (o : ObjectImages) : Json :=
  .obj [("original", encSlice encObjectImage o.Original),
        ("card", encSlice encObjectImage o.Card)]

def decObjectImages : Json → Option ObjectImages :=
  decObj fun fs =>
    match jfield fs "original" (decSlice decObjectImage) with
    | none => none
    | some og =>
    match jfield fs "card" (decSlice decObjectImage) with
    | none => none
    | some cd =>
      some ⟨og, cd⟩

/-- The source's `ArtefactDTO` struct; the Go fields of type
`[]interface\x7b\x7d` hold arbitrary JSON values. -/
structure ArtefactDTO where
  ObjectNumber : String
  TitleEN : String
  TitleAR : String
  ObjectNameEN : String
  ObjectNameAR : String
  ArtistEN : String
  ArtistAR : String
  Museum : Museum
  OpeningTimes : GoSlice OpeningTime
  SummaryEN : String
  SummaryAR : String
  ObjectImages : ObjectImages
  RelatedWebpages : GoSlice Json
  Object3dEmbed : GoSlice Json
  Coords : Coordinates

def encodeArtefactDTO (a : ArtefactDTO) : Json :=
  .obj [("objectNumber", .str a.ObjectNumber),
        ("titleEN", .str a.TitleEN),
        ("titleAR", .str a.TitleAR),
        ("objectNameEN", .str a.ObjectNameEN),
        ("objectNameAR", .str a.ObjectNameAR),
        ("artistEN", .str a.ArtistEN),
        ("artistAR", .str a.ArtistAR),
        ("museum", encMuseum a.Museum),
        ("openingTimes", encSlice encOpeningTime a.OpeningTimes),
        ("summaryEN", .str a.SummaryEN),
        ("summaryAR", .str a.SummaryAR),
        ("objectImages", encObjectImages a.ObjectImages),
        ("relatedWebpages", encSlice id a.RelatedWebpages),
        ("object3dEmbed", encSlice id a.Object3dEmbed),
        ("coords", encCoords a.Coords)]

def decodeArtefactDTO : Json → Option ArtefactDTO :=
  decObj fun fs =>
    match jfield fs "objectNumber" decStr with
    | none => none
    | some ob =>
    match jfield fs "titleEN" decStr with
    | none => none
    | some te =>
    match jfield fs "titleAR" decStr with
    | none => none
    | some ta =>
    match jfield fs "objectNameEN" decStr with
    | none => none
    | some oe =>
    match jfield fs "objectNameAR" decStr with
    | none => none
    | some oa =>
    match jfield fs "artistEN" decStr with
    | none => none
    | some ae =>
    match jfield fs "artistAR" decStr with
    | none => none
    | some aa =>
    match jfield fs "museum" decMuseum with
    | none => none
    | some mu =>
    match jfield fs "openingTimes" (decSlice decOpeningTime) with
    | none => none
    | some ot =>
    match jfield fs "summaryEN" decStr with
    | none => none
    | some se =>
    match jfield fs "summaryAR" decStr with
    | none => none
    | some sa =>
    match jfield fs "objectImages" decObjectImages with
    | none => none
    | some oi =>
    match jfield fs "relatedWebpages" (decSlice decAny) with
    | none => none
    | some rw =>
    match jfield fs "object3dEmbed" (decSlice decAny) with
    | none => none
    | some o3 =>
    match jfield fs "coords" decCoords with
    | none => none
    | some co =>
      some ⟨ob, te, ta, oe, oa, ae, aa, mu, ot, se, sa, oi, rw, o3, co⟩

/-- The source's `QMResponse` envelope: a total count, a pagination
cursor, an untyped `previous` field, and the `results` list. -/
structure QMResponse where
  Count : Int
  Next : String
  Previous : Json
  Results : GoSlice ArtefactDTO

def decodeQM : Json → Option QMResponse :=
  decObj fun fs =>
    match jfield fs "count" decInt with
    | none => none
    | some c =>
    match jfield fs "next" decStr with
    | none => none
    | some n =>
    match jfield fs "previous" decAny with
    | none => none
    | some p =>
    match jfield fs "results" (decSlice decodeArtefactDTO) with
    | none => none
    | some r =>
      some ⟨c, n, p, r⟩

/-- Unicode White_Space test, as Go's `unicode.IsSpace` (used by
`strings.TrimSpace`) decides it. -/
def isGoSpace (c : Char) : Bool :=
  let n := c.toNat
  (0x9 ≤ n && n ≤ 0xd) || n = 0x20 || n = 0x85 || n = 0xa0 || n = 0x1680 ||
  (0x2000 ≤ n && n ≤ 0x200a) || n = 0x2028 || n = 0x2029 || n = 0x202f ||
  n = 0x205f || n = 0x3000

/-- Go's `strings.Split(s, ",")` on the character list of `s`: one
piece per comma-separated segment (an empty input gives one empty
piece). -/
def splitCommaCh : List Char → List (List Char)
  | [] => [[]]
  | c :: rest =>
    let r := splitCommaCh rest
    if c = ',' then [] :: r
    else
      match r with
      | [] => [[c]]
      | t :: ts => (c :: t) :: ts

/-- Drop the maximal all-`p` suffix of a list (trimming the right
end, as the second half of Go's `strings.TrimSpace` does). -/
def dropTrailing (p : α → Bool) : List α → List α
  | [] => []
  | a :: as =>
    match dropTrailing p as with
    | [] => if p a then [] else [a]
    | l => a :: l

/-- Go's `strings.TrimSpace` on a character list: drop White_Space
characters from both ends. -/
def trimSpaceCh (l : List Char) : List Char :=
  dropTrailing isGoSpace (l.dropWhile isGoSpace)

/-- Go's `strings.Split(s, ",")`. -/
def goSplit (s : String) : List String :=
  (splitCommaCh s.data).map String.mk

/-- Go's `strings.TrimSpace`. -/
def goTrim (s : String) : String :=
  String.mk (trimSpaceCh s.data)

/-- Numeric value of a non-empty all-digit character list, or `none`. -/
def parseDigits : List Char → Option Nat
  | [] => none
  | l => l.foldl (fun acc c =>
      acc.bind fun n => if c.isDigit then some (n * 10 + (c.toNat - 48)) else none)
      (some 0)

/-- Go's `strconv.Atoi`: optional sign, decimal digits only, value
within the 64-bit int range; anything else is an error (`none`). -/
def atoi (s : String) : Option Int :=
  match s.data with
  | [] => none
  | '+' :: rest =>
    (parseDigits rest).bind fun n =>
      if n ≤ 2 ^ 63 - 1 then some (Int.ofNat n) else none
  | '-' :: rest =>
    (parseDigits rest).bind fun n =>
      if n ≤ 2 ^ 63 then some (-(Int.ofNat n)) else none
  | l =>
    (parseDigits l).bind fun n =>
      if n ≤ 2 ^ 63 - 1 then some (Int.ofNat n) else none

/-- The target ids the exhibits handler collects from the `ids`
parameter: split on commas, trim each token, keep the tokens that
parse as integers. -/
def parseIds (p : String) : List Int :=
  (goSplit p).filterMap fun t => atoi (goTrim t)

/-- The target object numbers the artefacts handler collects from the
`objectNumbers` parameter: split on commas and trim each token. -/
def parseObjectNumbers (p : String) : List String :=
  (goSplit p).map goTrim

/-- The exhibits kept by the filter loop: a record is appended once as
soon as some target id equals its id. -/
def exhibitsMatching (exhibits : List ExhibitDTO) (targetIDs : List Int) :
    List ExhibitDTO :=
  exhibits.filter fun e => targetIDs.any fun t => e.ID == t

/-- The `filteredExhibits` slice the handler builds: with a non-empty
`ids` parameter it starts nil and grows by appends (so it is nil
exactly when nothing matched); otherwise it aliases the decoded
slice. -/
def exhibitsFiltered (exhibits : GoSlice ExhibitDTO) (idsParam : String) :
    GoSlice ExhibitDTO :=
  if idsParam = "" then exhibits
  else
    match exhibitsMatching exhibits.elems (parseIds idsParam) with
    | [] => none
    | l => some l

/-- The artefacts kept by the filter loop. -/
def artefactsMatching (results : List ArtefactDTO) (targets : List String) :
    List ArtefactDTO :=
  results.filter fun a => targets.any fun t => a.ObjectNumber == t

/-- The `filteredArtefacts` slice the handler builds. -/
def artefactsFiltered (results : GoSlice ArtefactDTO) (objectNumbersParam : String) :
    GoSlice ArtefactDTO :=
  if objectNumbersParam = "" then results
  else
    match artefactsMatching results.elems (parseObjectNumbers objectNumbersParam) with
    | [] => none
    | l => some l

/-- A response body: plain text (error paths and the health route) or
a JSON document (success paths). -/
inductive Body where
  | text (s : String)
  | json (j : Json)

/-- An HTTP response: status, the headers the handler sets, body. -/
structure HttpResponse where
  status : Nat
  headers : List (String × String)
  body : Body

/-- Go's `http.Error`: sets a plain-text content type and the nosniff
header, writes the given status, and writes the message followed by a
newline.  The CORS headers are not among the headers set. -/
def httpError (msg : String) (code : Nat) : HttpResponse :=
  { status := code,
    headers := [("Content-Type", "text/plain; charset=utf-8"),
                ("X-Content-Type-Options", "nosniff")],
    body := .text (msg ++ "\n") }

/-- The three CORS headers the handlers set on the success path. -/
def corsHeaders : List (String × String) :=
  [("Access-Control-Allow-Origin", "*"),
   ("Access-Control-Allow-Methods", "GET, OPTIONS"),
   ("Access-Control-Allow-Headers", "Content-Type")]

/-- The 200 response written on a handler's success path. -/
def jsonOk (j : Json) : HttpResponse :=
  { status := 200,
    headers := corsHeaders ++ [("Content-Type", "application/json")],
    body := .json j }

/-- Outcome of `findFile` plus `os.ReadFile` for one request, with the
bytes already parsed where they form a JSON document: `findErr` is a
failed lookup, `readErr` a failed read (with the system error's text),
`ok` a successful read of the given document.  A read that yields
bytes that are not JSON at all is surfaced the same way as a document
of the wrong shape, through the decoder returning `none`. -/
inductive ReadResult where
  | findErr
  | readErr (msg : String)
  | ok (data : Json)

/-- The `/exhibits` handler (src/main.go lines 149-206), from the file
outcome and the `ids` query value to the response. -/
def exhibitsHandler (file : ReadResult) (idsParam : String) : HttpResponse :=
  match file with
  | .findErr => httpError "Error finding exhibits.json" 500
  | .readErr _ => httpError "Error reading exhibits.json" 500
  | .ok data =>
    match decodeExhibits data with
    | none => httpError "Error parsing exhibits.json" 500
    | some exhibits => jsonOk (encodeExhibits (exhibitsFiltered exhibits idsParam))

/-- The `/artefacts` handler (src/main.go lines 208-262); its error
bodies append the underlying error's text (`os.ErrNotExist` prints
"file does not exist"), and `parseMsg` stands for the text of the
`json.Unmarshal` error on the decode-failure branch. -/
def artefactsHandler (file : ReadResult) (parseMsg : String)
    (objectNumbersParam : String) : HttpResponse :=
  match file with
  | .findErr => httpError ("Error finding `qm_data.json`: " ++ "file does not exist") 500
  | .readErr m => httpError ("Error reading qm_data.json: " ++ m) 500
  | .ok data =>
    match decodeQM data with
    | none => httpError ("Error parsing qm_data.json: " ++ parseMsg) 500
    | some qm => jsonOk (encSlice encodeArtefactDTO (artefactsFiltered qm.Results objectNumbersParam))

/-- The `/` handler. -/
def helloResponse : HttpResponse :=
  { status := 200,
    headers := [("Content-Type", "text/plain")],
    body := .text "Hello, world!" }

/-- The three routes the server registers. -/
inductive Route where
  | root
  | exhibits
  | artefacts

/-- One request: a route and the relevant query-parameter value. -/
structure Request where
  route : Route
  param : String

/-- The environment one request runs against: the outcome of each data
file's lookup-and-read, and the decode-error text for the artefacts
file.  The handlers share no mutable state, so serving is a pure
function of this environment. -/
structure World where
  exhibitsFile : ReadResult
  artefactsFile : ReadResult
  qmParseMsg : String

/-- Dispatch one request. -/
def serve (w : World) (r : Request) : HttpResponse :=
  match r.route with
  | .root => helloResponse
  | .exhibits => exhibitsHandler w.exhibitsFile r.param
  | .artefacts => artefactsHandler w.artefactsFile w.qmParseMsg r.param

/-- Serve a whole request sequence: each request is handled
independently, none terminates the process. -/
def serveAll (w : World) (rs : List Request) : List HttpResponse :=
  rs.map (serve w)

/-- Whether a response is the 500 plain-text error the handlers send
on a failure: internal-server-error status, plain-text content type,
and a non-empty text body. -/
def isPlainError (r : HttpResponse) : Prop :=
  r.status = 500 ∧
  ("Content-Type", "text/plain; charset=utf-8") ∈ r.headers ∧
  ∃ s, r.body = .text s ∧ s ≠ ""

/-- Whether a response carries all three CORS headers. -/
def corsPresent (r : HttpResponse) : Prop :=
  ("Access-Control-Allow-Origin", "*") ∈ r.headers ∧
  ("Access-Control-Allow-Methods", "GET, OPTIONS") ∈ r.headers ∧
  ("Access-Control-Allow-Headers", "Content-Type") ∈ r.headers

/-- Whether a response carries none of the three CORS headers: each of
the name-value pairs is absent from its header list. -/
def corsAbsent (r : HttpResponse) : Prop :=
  ("Access-Control-Allow-Origin", "*") ∉ r.headers ∧
  ("Access-Control-Allow-Methods", "GET, OPTIONS") ∉ r.headers ∧
  ("Access-Control-Allow-Headers", "Content-Type") ∉ r.headers

/-- The filesystem and process facts `findFile` consults: whether a
path exists (`os.Stat` succeeding), the executable's path and the
working directory when those lookups succeed, and the behaviour of the
path-library helpers `filepath.Dir` and `filepath.Join`. -/
structure FS where
  pathExists : String → Bool
  execPath : Option String
  wd : Option String
  dir : String → String
  join : String → String → String

/-- Go's `os.ErrNotExist`, the only error value `findFile` returns. -/
inductive GoErr where
  | errNotExist
deriving DecidableEq

/-- The source's `findFile` (src/main.go lines 113-140): try the bare
filename, then the filename under the executable's directory, then the
filename under the working directory; on total failure return the
original filename with `os.ErrNotExist`. -/
def findFile (fs : FS) (filename : String) : String × Option GoErr :=
  if fs.pathExists filename then (filename, none)
  else
    match fs.execPath with
    | some ep =>
      let path := fs.join (fs.dir ep) filename
      if fs.pathExists path then (path, none)
      else
        match fs.wd with
        | some w =>
          let wpath := fs.join w filename
          if fs.pathExists wpath then (wpath, none)
          else (filename, some .errNotExist)
        | none => (filename, some .errNotExist)
    | none =>
      match fs.wd with
      | some w =>
        let wpath := fs.join w filename
        if fs.pathExists wpath then (wpath, none)
        else (filename, some .errNotExist)
      | none => (filename, some .errNotExist)

/-- A sample exhibit record with a chosen id. -/
def sampleExhibit (n : Int) : ExhibitDTO :=
  ⟨n, ⟨"", ""⟩, ⟨"", ""⟩, "", "", ⟨"", ""⟩, ⟨"", ""⟩, ⟨"", ""⟩, ⟨"", ""⟩,
   ⟨"", ""⟩, ⟨"", ""⟩, "", "", "", "", none, "", none, ⟨⟨0, 0⟩, ⟨0, 0⟩⟩, "", ""⟩

/-- A sample artefact record with a chosen object number. -/
def sampleArtefact (s : String) : ArtefactDTO :=
  ⟨s, "", "", "", "", "", "", ⟨"", "", "", ""⟩, none, "", "",
   ⟨none, none⟩, none, none, ⟨⟨0, 0⟩, ⟨0, 0⟩⟩⟩

/-- A sample artefact envelope around given results. -/
def sampleQM (c : Int) (res : GoSlice ArtefactDTO) : QMResponse :=
  ⟨c, "", .null, res⟩

/-- A sample filesystem in which only "/wd/f.json" exists, the
executable lives in "/bin", and the working directory is "/wd". -/
def sampleFS : FS :=
  ⟨fun s => s == "/wd/f.json", some "/bin/app", some "/wd",
   fun _ => "/bin", fun a b => a ++ "/" ++ b⟩

theorem decList_rt (dec : Json → Option α) (enc : α → Json)
    (h : ∀ a, dec (enc a) = some a) :
    ∀ l : List α, decList dec (l.map enc) = some l := by
  intro l
  induction l with
  | nil => rfl
  | cons a as ih => simp [decList, h, ih]

theorem decSlice_rt (dec : Json → Option α) (enc : α → Json)
    (h : ∀ a, dec (enc a) = some a) :
    ∀ t : GoSlice α, decSlice dec (encSlice enc t) = some t := by
  intro t
  cases t with
  | none => rfl
  | some l => simp [encSlice, decSlice, decList_rt dec enc h]

theorem decStr_rt (s : String) : decStr (.str s) = some s := rfl

theorem decLS_rt (x : LocalizedString) : decLS (encLS x) = some x := rfl

theorem decCoords_rt (c : Coordinates) : decCoords (encCoords c) = some c := rfl

theorem decOptStr_rt (o : Option String) : decOptStr (encOptStr o) = some o := by
  cases o <;> rfl

theorem decSlice_str_rt (t : GoSlice String) :
    decSlice decStr (encSlice Json.str t) = some t :=
  decSlice_rt _ _ decStr_rt t

theorem rt_exhibitDTO (e : ExhibitDTO) :
    decodeExhibitDTO (encodeExhibitDTO e) = some e := by
  simp [decodeExhibitDTO, encodeExhibitDTO, decObj, jfield, getField,
        decLS_rt, decCoords_rt, decOptStr_rt, decSlice_str_rt, decStr, decInt]

theorem decodeExhibits_rt (s : GoSlice ExhibitDTO) :
    decodeExhibits (encodeExhibits s) = some s :=
  decSlice_rt _ _ rt_exhibitDTO s

theorem decMuseum_rt (m : Museum) : decMuseum (encMuseum m) = some m := rfl

theorem decOpeningTime_rt (t : OpeningTime) :
    decOpeningTime (encOpeningTime t) = some t := rfl

theorem decObjectImage_rt (i : ObjectImage) :
    decObjectImage (encObjectImage i) = some i := rfl

theorem decSlice_objectImage_rt (t : GoSlice ObjectImage) :
    decSlice decObjectImage (encSlice encObjectImage t) = some t :=
  decSlice_rt _ _ decObjectImage_rt t

theorem decObjectImages_rt (o : ObjectImages) :
    decObjectImages (encObjectImages o) = some o := by
  simp [decObjectImages, encObjectImages, decObj, jfield, getField,
        decSlice_objectImage_rt]

theorem decSlice_openingTime_rt (t : GoSlice OpeningTime) :
    decSlice decOpeningTime (encSlice encOpeningTime t) = some t :=
  decSlice_rt _ _ decOpeningTime_rt t

theorem decSlice_any_rt (t : GoSlice Json) :
    decSlice decAny (encSlice id t) = some t :=
  decSlice_rt _ _ (fun _ => rfl) t

theorem rt_artefactDTO (a : ArtefactDTO) :
    decodeArtefactDTO (encodeArtefactDTO a) = some a := by
  simp [decodeArtefactDTO, encodeArtefactDTO, decObj, jfield, getField,
        decMuseum_rt, decObjectImages_rt, decSlice_openingTime_rt,
        decSlice_any_rt, decCoords_rt, decStr]

theorem any_beq_iff [BEq α] [LawfulBEq α] (l : List α) (a : α) :
    (l.any fun t => a == t) = true ↔ a ∈ l := by
  simp [List.any_eq_true]

theorem contains_eq_any [BEq α] (l : List α) (a : α) :
    l.contains a = l.any fun t => a == t := by
  induction l with
  | nil => rfl
  | cons b bs ih =>
    simp only [List.any_cons, ← ih, List.contains_cons]

theorem splitCommaCh_ne_nil (l : List Char) : splitCommaCh l ≠ [] := by
  induction l with
  | nil => simp [splitCommaCh]
  | cons c rest ih =>
    simp only [splitCommaCh]
    split
    · simp
    · split
      · simp
      · simp

theorem goSplit_ne_nil (s : String) : goSplit s ≠ [] := by
  intro h
  exact splitCommaCh_ne_nil s.data (List.map_eq_nil_iff.mp h)

theorem exhibitsFiltered_of_ne_nil (s : GoSlice ExhibitDTO) (p : String)
    (hp : p ≠ "") (hne : exhibitsMatching s.elems (parseIds p) ≠ []) :
    exhibitsFiltered s p = some (exhibitsMatching s.elems (parseIds p)) := by
  unfold exhibitsFiltered
  rw [if_neg hp]
  cases hm : exhibitsMatching s.elems (parseIds p) with
  | nil => exact absurd hm hne
  | cons a l => simp [hm]

theorem elems_exhibitsFiltered (s : GoSlice ExhibitDTO) (p : String) (hp : p ≠ "") :
    (exhibitsFiltered s p).elems = exhibitsMatching s.elems (parseIds p) := by
  unfold exhibitsFiltered
  rw [if_neg hp]
  cases hm : exhibitsMatching s.elems (parseIds p) with
  | nil => simp [hm, GoSlice.elems]
  | cons a l => simp [hm, GoSlice.elems]

theorem exhibitsMatching_eq_filter_contains (l : List ExhibitDTO) (ids : List Int) :
    exhibitsMatching l ids = l.filter fun e => ids.contains e.ID := by
  unfold exhibitsMatching
  apply List.filter_congr
  intro e _
  exact (contains_eq_any ids e.ID).symm

/-- C1: with a non-empty `ids` value whose tokens all parse to ids
present in the dataset, the response body is exactly the encoding of
the records whose id is among the parsed targets, kept in dataset
order and each at most once (the filtered list is a sublist of the
dataset), and any other `ids` value whose parsed targets have the same
members — any reordering or duplication of the requested ids — gives
the identical response. -/
theorem exhibits_ids_filter_exact
    (j : Json) (s : GoSlice ExhibitDTO) (p q : String)
    (hdec : decodeExhibits j = some s)
    (hp : p ≠ "") (hq : q ≠ "")
    (hparse : ∀ t ∈ goSplit p, (atoi (goTrim t)).isSome = true)
    (hpresent : ∀ n ∈ parseIds p, n ∈ s.elems.map fun e => e.ID)
    (hsame : ∀ n : Int, n ∈ parseIds q ↔ n ∈ parseIds p) :
    (exhibitsHandler (.ok j) p).body
        = .json (.arr (((s.elems.filter fun e => (parseIds p).contains e.ID).map
            encodeExhibitDTO)))
    ∧ (exhibitsFiltered s p).elems.Sublist s.elems
    ∧ exhibitsHandler (.ok j) q = exhibitsHandler (.ok j) p := by
  have hmatch : exhibitsMatching s.elems (parseIds p)
      = s.elems.filter fun e => (parseIds p).contains e.ID :=
    exhibitsMatching_eq_filter_contains _ _
  have hne : exhibitsMatching s.elems (parseIds p) ≠ [] := by
    obtain ⟨t0, ht0⟩ : ∃ t0, t0 ∈ goSplit p := by
      cases hg : goSplit p with
      | nil => exact absurd hg (goSplit_ne_nil p)
      | cons a l => exact ⟨a, by simp [hg]⟩
    obtain ⟨n0, hn0⟩ := Option.isSome_iff_exists.mp (hparse t0 ht0)
    have hn0mem : n0 ∈ parseIds p := by
      unfold parseIds
      exact List.mem_filterMap.mpr ⟨t0, ht0, hn0⟩
    obtain ⟨e0, he0, he0id⟩ := List.mem_map.mp (hpresent n0 hn0mem)
    have : e0 ∈ exhibitsMatching s.elems (parseIds p) := by
      rw [hmatch]
      refine List.mem_filter.mpr ⟨he0, ?_⟩
      rw [contains_eq_any]
      exact (any_beq_iff _ _).mpr (he0id ▸ hn0mem)
    intro hnil
    rw [hnil] at this
    exact absurd this (List.not_mem_nil e0)
  have hq_eq : exhibitsMatching s.elems (parseIds q)
      = exhibitsMatching s.elems (parseIds p) := by
    unfold exhibitsMatching
    apply List.filter_congr
    intro e _
    by_cases hm : e.ID ∈ parseIds p
    · rw [(any_beq_iff _ _).mpr hm, (any_beq_iff _ _).mpr ((hsame _).mpr hm)]
    · have h1 : ((parseIds q).any fun t => e.ID == t) = false := by
        rw [Bool.eq_false_iff]
        intro hh
        exact hm ((hsame _).mp ((any_beq_iff _ _).mp hh))
      have h2 : ((parseIds p).any fun t => e.ID == t) = false := by
        rw [Bool.eq_false_iff]
        intro hh
        exact hm ((any_beq_iff _ _).mp hh)
      rw [h1, h2]
  have hfil : exhibitsFiltered s q = exhibitsFiltered s p := by
    unfold exhibitsFiltered
    rw [if_neg hp, if_neg hq, hq_eq]
  refine ⟨?_, ?_, ?_⟩
  · simp only [exhibitsHandler, hdec]
    rw [exhibitsFiltered_of_ne_nil s p hp hne]
    simp [jsonOk, encodeExhibits, encSlice, hmatch]
  · rw [elems_exhibitsFiltered s p hp, hmatch]
    exact List.filter_sublist _
  · simp only [exhibitsHandler, hdec, hfil]

/-- Witness for C1 at a concrete dataset and parameter: ids 2 and 1
are both present; the response keeps dataset order and ignores
requested order and duplicates. -/
theorem exhibits_ids_filter_exact_witness :
    (exhibitsHandler
        (.ok (Json.arr [encodeExhibitDTO (sampleExhibit 1), encodeExhibitDTO (sampleExhibit 2)]))
        "2, 1").body
      = .json (.arr [encodeExhibitDTO (sampleExhibit 1), encodeExhibitDTO (sampleExhibit 2)])
    ∧ exhibitsHandler
        (.ok (Json.arr [encodeExhibitDTO (sampleExhibit 1), encodeExhibitDTO (sampleExhibit 2)]))
        "1,2,2"
      = exhibitsHandler
        (.ok (Json.arr [encodeExhibitDTO (sampleExhibit 1), encodeExhibitDTO (sampleExhibit 2)]))
        "2, 1" := by
  have h := exhibits_ids_filter_exact
    (Json.arr [encodeExhibitDTO (sampleExhibit 1), encodeExhibitDTO (sampleExhibit 2)])
    (some [sampleExhibit 1, sampleExhibit 2]) "2, 1" "1,2,2"
    (by rw [show Json.arr [encodeExhibitDTO (sampleExhibit 1), encodeExhibitDTO (sampleExhibit 2)]
          = encodeExhibits (some [sampleExhibit 1, sampleExhibit 2]) from rfl]
        exact decodeExhibits_rt _)
    (by decide) (by decide)
    (by decide)
    (by decide)
    (by intro n
        rw [show parseIds "1,2,2" = [1, 2, 2] from rfl,
            show parseIds "2, 1" = [2, 1] from rfl]
        simp
        tauto)
  refine ⟨?_, h.2.2⟩
  rw [h.1]
  rfl

/-- C2: with the `ids` parameter absent or empty (both reach the
handler as ""), the response is the 200 JSON response whose body is
the encoding of the full decoded dataset, record for record in source
order, and that encoding decodes back to exactly the dataset. -/
theorem exhibits_no_ids_returns_all (j : Json) (s : GoSlice ExhibitDTO)
    (hdec : decodeExhibits j = some s) :
    exhibitsHandler (.ok j) "" = jsonOk (encodeExhibits s)
    ∧ (exhibitsFiltered s "").elems = s.elems
    ∧ decodeExhibits (encodeExhibits s) = some s := by
  refine ⟨?_, rfl, decodeExhibits_rt s⟩
  simp [exhibitsHandler, hdec, exhibitsFiltered]

/-- Witness for C2 at a concrete one-record dataset. -/
theorem exhibits_no_ids_returns_all_witness :
    exhibitsHandler (.ok (encodeExhibits (some [sampleExhibit 5]))) ""
      = jsonOk (encodeExhibits (some [sampleExhibit 5])) :=
  (exhibits_no_ids_returns_all _ _ (decodeExhibits_rt _)).1

theorem exhibitsFiltered_of_nil (s : GoSlice ExhibitDTO) (p : String)
    (hp : p ≠ "") (hnil : exhibitsMatching s.elems (parseIds p) = []) :
    exhibitsFiltered s p = none := by
  unfold exhibitsFiltered
  rw [if_neg hp, hnil]

theorem artefactsFiltered_of_nil (s : GoSlice ArtefactDTO) (p : String)
    (hp : p ≠ "") (hnil : artefactsMatching s.elems (parseObjectNumbers p) = []) :
    artefactsFiltered s p = none := by
  unfold artefactsFiltered
  rw [if_neg hp, hnil]

theorem elems_artefactsFiltered (s : GoSlice ArtefactDTO) (p : String) (hp : p ≠ "") :
    (artefactsFiltered s p).elems = artefactsMatching s.elems (parseObjectNumbers p) := by
  unfold artefactsFiltered
  rw [if_neg hp]
  cases hm : artefactsMatching s.elems (parseObjectNumbers p) with
  | nil => simp [hm, GoSlice.elems]
  | cons a l => simp [hm, GoSlice.elems]

/-- C3 counterexample: with a present, non-matching filter the claim
says the body is an empty JSON list, but on a decodable dataset and
the all-non-numeric `ids` value "abc" the body is the JSON literal
null (the nil slice was never appended to), which is a different JSON
document than the empty array. -/
theorem empty_match_counterexample :
    (exhibitsHandler (.ok (Json.arr [encodeExhibitDTO (sampleExhibit 1)])) "abc").status = 200
    ∧ (exhibitsHandler (.ok (Json.arr [encodeExhibitDTO (sampleExhibit 1)])) "abc").body
        = .json .null
    ∧ (exhibitsHandler (.ok (Json.arr [encodeExhibitDTO (sampleExhibit 1)])) "abc").body
        ≠ .json (.arr []) := by
  refine ⟨rfl, rfl, ?_⟩
  intro h
  rw [show (exhibitsHandler (.ok (Json.arr [encodeExhibitDTO (sampleExhibit 1)])) "abc").body
        = .json .null from rfl] at h
  injection h with h'
  exact Json.noConfusion h'

/-- C3 amended: when the filter parameter is present and non-empty but
no record matches, both handlers respond 200 with the JSON literal
null as body — the encoding of the never-appended nil slice — which is
neither an error response nor the unfiltered dataset. -/
theorem empty_match_returns_null
    (j jq : Json) (s : GoSlice ExhibitDTO) (qm : QMResponse) (pm p pq : String)
    (hdec : decodeExhibits j = some s) (hp : p ≠ "")
    (hnom : ∀ e ∈ s.elems, e.ID ∉ parseIds p)
    (hdecq : decodeQM jq = some qm) (hpq : pq ≠ "")
    (hnoq : ∀ a ∈ qm.Results.elems, a.ObjectNumber ∉ parseObjectNumbers pq) :
    exhibitsHandler (.ok j) p = jsonOk Json.null
    ∧ artefactsHandler (.ok jq) pm pq = jsonOk Json.null := by
  constructor
  · have hnil : exhibitsMatching s.elems (parseIds p) = [] := by
      apply List.filter_eq_nil_iff.mpr
      intro e he
      intro hany
      exact hnom e he ((any_beq_iff _ _).mp hany)
    simp [exhibitsHandler, hdec, exhibitsFiltered_of_nil s p hp hnil,
          encodeExhibits, encSlice]
  · have hnil : artefactsMatching qm.Results.elems (parseObjectNumbers pq) = [] := by
      apply List.filter_eq_nil_iff.mpr
      intro a ha
      intro hany
      exact hnoq a ha ((any_beq_iff _ _).mp hany)
    simp [artefactsHandler, hdecq, artefactsFiltered_of_nil qm.Results pq hpq hnil,
          encSlice]

/-- Witness for the amended C3: a one-record exhibits dataset with the
all-non-numeric filter "abc", and a one-record artefacts dataset with
the absent object number "NONEXISTENT". -/
theorem empty_match_returns_null_witness :
    exhibitsHandler (.ok (Json.arr [encodeExhibitDTO (sampleExhibit 1)])) "abc"
      = jsonOk Json.null
    ∧ artefactsHandler
        (.ok (Json.obj [("count", .int 1), ("next", .str ""), ("previous", .null),
          ("results", .arr [encodeArtefactDTO (sampleArtefact "Q1.1")])]))
        "m" "NONEXISTENT"
      = jsonOk Json.null :=
  empty_match_returns_null
    (Json.arr [encodeExhibitDTO (sampleExhibit 1)])
    (Json.obj [("count", .int 1), ("next", .str ""), ("previous", .null),
      ("results", .arr [encodeArtefactDTO (sampleArtefact "Q1.1")])])
    (some [sampleExhibit 1]) (sampleQM 1 (some [sampleArtefact "Q1.1"])) "m" "abc" "NONEXISTENT"
    rfl (by decide) (by decide) rfl (by decide) (by decide)

theorem isPlainError_httpError (msg : String) : isPlainError (httpError msg 500) := by
  refine ⟨rfl, by simp [httpError], msg ++ "\n", rfl, ?_⟩
  intro h
  have h2 := congrArg String.length h
  rw [String.length_append, show ("\n").length = 1 from rfl,
      show ("" : String).length = 0 from rfl] at h2
  omega

/-- C4: when locating, reading or decoding the data file fails, each
data-route handler answers 500 with a plain-text, non-empty error body
and does nothing further with the request, and serving is a pure
per-request function: a failing request leaves every later request's
response (on any route) exactly what it would have been. -/
theorem handlers_fail_with_500 (msg pm p : String) (j : Json)
    (w : World) (r : Request) (rs : List Request) :
    isPlainError (exhibitsHandler .findErr p)
    ∧ isPlainError (exhibitsHandler (.readErr msg) p)
    ∧ (decodeExhibits j = none → isPlainError (exhibitsHandler (.ok j) p))
    ∧ isPlainError (artefactsHandler .findErr pm p)
    ∧ isPlainError (artefactsHandler (.readErr msg) pm p)
    ∧ (decodeQM j = none → isPlainError (artefactsHandler (.ok j) pm p))
    ∧ serveAll w (r :: rs) = serve w r :: serveAll w rs := by
  refine ⟨isPlainError_httpError _, isPlainError_httpError _, ?_,
          isPlainError_httpError _, isPlainError_httpError _, ?_, rfl⟩
  · intro h
    simp only [exhibitsHandler, h]
    exact isPlainError_httpError _
  · intro h
    simp only [artefactsHandler, h]
    exact isPlainError_httpError _

/-- Witness for C4: a dataset whose bytes decode to a JSON string
cannot be unmarshalled into the record types, so both handlers answer
with the 500 plain-text error. -/
theorem handlers_fail_with_500_witness :
    isPlainError (exhibitsHandler (.ok (Json.str "x")) "")
    ∧ isPlainError (artefactsHandler (.ok (Json.str "x")) "bad" "") :=
  ⟨(handlers_fail_with_500 "" "bad" "" (Json.str "x")
      ⟨.findErr, .findErr, ""⟩ ⟨.root, ""⟩ []).2.2.1 rfl,
   (handlers_fail_with_500 "" "bad" "" (Json.str "x")
      ⟨.findErr, .findErr, ""⟩ ⟨.root, ""⟩ []).2.2.2.2.2.1 rfl⟩

/-- C5 counterexample: the claim says every data-route response,
including the 500 errors, carries the three CORS headers; the
find-error responses of both handlers are 500s whose header lists
contain none of the three. -/
theorem cors_missing_on_error_counterexample :
    (exhibitsHandler .findErr "").status = 500
    ∧ ("Access-Control-Allow-Origin", "*") ∉ (exhibitsHandler .findErr "").headers
    ∧ ("Access-Control-Allow-Methods", "GET, OPTIONS") ∉ (exhibitsHandler .findErr "").headers
    ∧ ("Access-Control-Allow-Headers", "Content-Type") ∉ (exhibitsHandler .findErr "").headers
    ∧ (artefactsHandler .findErr "" "").status = 500
    ∧ ("Access-Control-Allow-Origin", "*") ∉ (artefactsHandler .findErr "" "").headers
    ∧ ("Access-Control-Allow-Methods", "GET, OPTIONS") ∉ (artefactsHandler .findErr "" "").headers
    ∧ ("Access-Control-Allow-Headers", "Content-Type") ∉ (artefactsHandler .findErr "" "").headers := by
  refine ⟨rfl, by decide, by decide, by decide, rfl, by decide, by decide, by decide⟩

/-- C5 amended: a data-route response carries the three CORS headers
exactly when it is a 200 success response, and carries none of the
three exactly when it is a 500 error response, written by `http.Error`
before the handler reaches its header-setting lines. -/
theorem cors_exactly_on_success (file : ReadResult) (pm p : String) :
    (corsPresent (exhibitsHandler file p) ↔ (exhibitsHandler file p).status = 200)
    ∧ (corsAbsent (exhibitsHandler file p) ↔ (exhibitsHandler file p).status = 500)
    ∧ (corsPresent (artefactsHandler file pm p) ↔ (artefactsHandler file pm p).status = 200)
    ∧ (corsAbsent (artefactsHandler file pm p) ↔ (artefactsHandler file pm p).status = 500) := by
  refine ⟨?_, ?_, ?_, ?_⟩
  · cases file with
    | findErr => simp [exhibitsHandler, corsPresent, httpError]
    | readErr m => simp [exhibitsHandler, corsPresent, httpError]
    | ok d =>
      cases hd : decodeExhibits d with
      | none => simp [exhibitsHandler, hd, corsPresent, httpError]
      | some s => simp [exhibitsHandler, hd, corsPresent, jsonOk, corsHeaders]
  · cases file with
    | findErr => simp [exhibitsHandler, corsAbsent, httpError]
    | readErr m => simp [exhibitsHandler, corsAbsent, httpError]
    | ok d =>
      cases hd : decodeExhibits d with
      | none => simp [exhibitsHandler, hd, corsAbsent, httpError]
      | some s => simp [exhibitsHandler, hd, corsAbsent, jsonOk, corsHeaders]
  · cases file with
    | findErr => simp [artefactsHandler, corsPresent, httpError]
    | readErr m => simp [artefactsHandler, corsPresent, httpError]
    | ok d =>
      cases hd : decodeQM d with
      | none => simp [artefactsHandler, hd, corsPresent, httpError]
      | some s => simp [artefactsHandler, hd, corsPresent, jsonOk, corsHeaders]
  · cases file with
    | findErr => simp [artefactsHandler, corsAbsent, httpError]
    | readErr m => simp [artefactsHandler, corsAbsent, httpError]
    | ok d =>
      cases hd : decodeQM d with
      | none => simp [artefactsHandler, hd, corsAbsent, httpError]
      | some s => simp [artefactsHandler, hd, corsAbsent, jsonOk, corsHeaders]

/-- C6: when the executable and working-directory lookups succeed,
`findFile` returns the first of the three candidate paths — the bare
filename, the filename under the executable's directory, the filename
under the freshly looked-up working directory — that exists, with no
error, and when none exists it returns the original filename paired
with the not-found error. -/
theorem findFile_first_existing (fs : FS) (filename ep w : String)
    (hep : fs.execPath = some ep) (hw : fs.wd = some w) :
    findFile fs filename =
      match [filename, fs.join (fs.dir ep) filename, fs.join w filename].find?
          fs.pathExists with
      | some c => (c, none)
      | none => (filename, some .errNotExist) := by
  simp only [findFile, hep, hw]
  cases h1 : fs.pathExists filename <;>
    cases h2 : fs.pathExists (fs.join (fs.dir ep) filename) <;>
    cases h3 : fs.pathExists (fs.join w filename) <;>
    simp [h1, h2, h3, List.find?]

/-- Witness for C6: in the sample filesystem only the third candidate
exists, and `findFile` returns it without error. -/
theorem findFile_first_existing_witness :
    findFile sampleFS "f.json" = ("/wd/f.json", none) := by
  rw [findFile_first_existing sampleFS "f.json" "/bin/app" "/wd" rfl rfl]
  rfl

/-- C7 counterexample: the claim says the response body is a bare JSON
array of artefact records; on a dataset that decodes successfully and
whose single record matches no token of the present query, the 200
response carries the JSON literal null as body — the encoding of the
nil filtered slice — which is a different JSON document than the empty
array (the only array the one-token no-match filter could produce). -/
theorem artefacts_null_body_counterexample :
    (artefactsHandler
        (.ok (Json.obj [("count", .int 1), ("next", .str ""), ("previous", .null),
          ("results", .arr [encodeArtefactDTO (sampleArtefact "Q1.1")])])) "m" "NOPE").status
      = 200
    ∧ (artefactsHandler
        (.ok (Json.obj [("count", .int 1), ("next", .str ""), ("previous", .null),
          ("results", .arr [encodeArtefactDTO (sampleArtefact "Q1.1")])])) "m" "NOPE").body
      = .json .null
    ∧ (artefactsHandler
        (.ok (Json.obj [("count", .int 1), ("next", .str ""), ("previous", .null),
          ("results", .arr [encodeArtefactDTO (sampleArtefact "Q1.1")])])) "m" "NOPE").body
      ≠ .json (.arr []) := by
  refine ⟨rfl, rfl, ?_⟩
  intro h
  rw [show (artefactsHandler
        (.ok (Json.obj [("count", .int 1), ("next", .str ""), ("previous", .null),
          ("results", .arr [encodeArtefactDTO (sampleArtefact "Q1.1")])])) "m" "NOPE").body
      = .json .null from rfl] at h
  injection h with h'
  exact Json.noConfusion h'

/-- C7 amended: the artefacts response is a function of the envelope's
results list and the query value alone — datasets equal in `results`
but different in `count`, `next` and `previous` produce the identical
response — and the success body is exactly the encoding of the
filtered slice: a bare JSON array of the matching artefact records
when that slice is non-nil, the JSON literal null when it is nil, and
in no case a JSON object such as a rebuilt envelope. -/
theorem artefacts_body_depends_only_on_results
    (j1 j2 : Json) (q1 q2 : QMResponse) (pm1 pm2 p : String)
    (h1 : decodeQM j1 = some q1) (h2 : decodeQM j2 = some q2)
    (hres : q1.Results = q2.Results) :
    artefactsHandler (.ok j1) pm1 p = artefactsHandler (.ok j2) pm2 p
    ∧ (artefactsHandler (.ok j1) pm1 p).body
        = .json (encSlice encodeArtefactDTO (artefactsFiltered q1.Results p))
    ∧ (∀ l, artefactsFiltered q1.Results p = some l →
        (artefactsHandler (.ok j1) pm1 p).body = .json (.arr (l.map encodeArtefactDTO)))
    ∧ (artefactsFiltered q1.Results p = none →
        (artefactsHandler (.ok j1) pm1 p).body = .json .null)
    ∧ ∀ fs, (artefactsHandler (.ok j1) pm1 p).body ≠ .json (.obj fs) := by
  refine ⟨?_, ?_, ?_, ?_, ?_⟩
  · simp only [artefactsHandler, h1, h2, hres]
  · simp only [artefactsHandler, h1, jsonOk]
  · intro l hl
    simp only [artefactsHandler, h1, jsonOk, hl, encSlice]
  · intro hl
    simp only [artefactsHandler, h1, jsonOk, hl, encSlice]
  · intro fs hbody
    simp only [artefactsHandler, h1, jsonOk] at hbody
    cases hf : artefactsFiltered q1.Results p with
    | none =>
      rw [hf] at hbody
      simp [encSlice] at hbody
    | some l =>
      rw [hf] at hbody
      simp [encSlice] at hbody

/-- Witness for C7: two envelopes with the same single-record results
list but different count, next and previous produce the identical
response. -/
theorem artefacts_body_depends_only_on_results_witness :
    artefactsHandler
        (.ok (Json.obj [("count", .int 0), ("next", .str "a"), ("previous", .null),
          ("results", .arr [encodeArtefactDTO (sampleArtefact "Q1.1")])])) "" "Q1.1"
      = artefactsHandler
        (.ok (Json.obj [("count", .int 5), ("next", .str "b"), ("previous", .str "z"),
          ("results", .arr [encodeArtefactDTO (sampleArtefact "Q1.1")])])) "x" "Q1.1" :=
  (artefacts_body_depends_only_on_results
    (Json.obj [("count", .int 0), ("next", .str "a"), ("previous", .null),
      ("results", .arr [encodeArtefactDTO (sampleArtefact "Q1.1")])])
    (Json.obj [("count", .int 5), ("next", .str "b"), ("previous", .str "z"),
      ("results", .arr [encodeArtefactDTO (sampleArtefact "Q1.1")])])
    ⟨0, "a", .null, some [sampleArtefact "Q1.1"]⟩
    ⟨5, "b", .str "z", some [sampleArtefact "Q1.1"]⟩
    "" "x" "Q1.1" rfl rfl rfl).1

/-- C8: ids need not be unique and the filter does not deduplicate:
whenever a requested id parses and the dataset holds two or more
records with that id, the filtered list keeps exactly the dataset's
records with that id, in their dataset positions (the filtered list is
a sublist of the dataset). -/
theorem duplicate_ids_all_returned (s : GoSlice ExhibitDTO) (p : String) (d : Int)
    (hp : p ≠ "") (hd : d ∈ parseIds p)
    (_hdup : 2 ≤ s.elems.countP fun e => e.ID == d) :
    ((exhibitsFiltered s p).elems.filter fun e => e.ID == d)
        = (s.elems.filter fun e => e.ID == d)
    ∧ (exhibitsFiltered s p).elems.Sublist s.elems := by
  have helems := elems_exhibitsFiltered s p hp
  constructor
  · rw [helems]
    unfold exhibitsMatching
    rw [List.filter_filter]
    apply List.filter_congr
    intro e _
    by_cases h : e.ID = d
    · have hany : ((parseIds p).any fun t => e.ID == t) = true :=
        (any_beq_iff _ _).mpr (h ▸ hd)
      simp [hany]
    · simp [h]
  · rw [helems]
    unfold exhibitsMatching
    exact List.filter_sublist _

/-- Witness for C8: the dataset holds two records with id 7 around one
with id 3; requesting id 7 returns both, in dataset order. -/
theorem duplicate_ids_all_returned_witness :
    ((exhibitsFiltered (some [sampleExhibit 7, sampleExhibit 3, sampleExhibit 7]) "7").elems.filter
        fun e => e.ID == 7)
      = [sampleExhibit 7, sampleExhibit 7] := by
  rw [(duplicate_ids_all_returned (some [sampleExhibit 7, sampleExhibit 3, sampleExhibit 7])
    "7" 7 (by decide) (by decide) (by decide)).1]
  rfl

/-- C9: encoding a decoded exhibit or artefact record and decoding the
result yields the original record; the envelope's count, next and
previous fields enjoy no such fidelity — envelopes differing in all
three but sharing a results list are serialized identically by the
artefacts route. -/
theorem record_roundtrip :
    (∀ j e, decodeExhibitDTO j = some e → decodeExhibitDTO (encodeExhibitDTO e) = some e)
    ∧ (∀ j a, decodeArtefactDTO j = some a → decodeArtefactDTO (encodeArtefactDTO a) = some a)
    ∧ ∃ q1 q2 : QMResponse,
        q1.Count ≠ q2.Count ∧ q1.Next ≠ q2.Next ∧ q1.Previous ≠ q2.Previous
        ∧ q1.Results = q2.Results
        ∧ ∀ p, encSlice encodeArtefactDTO (artefactsFiltered q1.Results p)
            = encSlice encodeArtefactDTO (artefactsFiltered q2.Results p) := by
  refine ⟨fun _ e _ => rt_exhibitDTO e, fun _ a _ => rt_artefactDTO a,
    sampleQM 0 none, ⟨1, "n", .str "p", none⟩, by decide, by decide,
    fun h => Json.noConfusion h, rfl, fun p => rfl⟩

/-- Witness for C9: the JSON document null decodes (to the all-zero
record) for both record families, and both records survive the
encode-decode round trip. -/
theorem record_roundtrip_witness :
    decodeExhibitDTO (encodeExhibitDTO (sampleExhibit 0)) = some (sampleExhibit 0)
    ∧ decodeArtefactDTO (encodeArtefactDTO (sampleArtefact "")) = some (sampleArtefact "") :=
  ⟨record_roundtrip.1 Json.null (sampleExhibit 0) rfl,
   record_roundtrip.2.1 Json.null (sampleArtefact "") rfl⟩

theorem splitCommaCh_no_comma (l : List Char) : ∀ t ∈ splitCommaCh l, ',' ∉ t := by
  induction l with
  | nil =>
    intro t ht
    simp only [splitCommaCh, List.mem_singleton] at ht
    subst ht
    simp
  | cons c rest ih =>
    intro t ht
    simp only [splitCommaCh] at ht
    by_cases hc : c = ','
    · rw [if_pos hc] at ht
      rcases List.mem_cons.mp ht with rfl | h
      · simp
      · exact ih t h
    · rw [if_neg hc] at ht
      cases hr : splitCommaCh rest with
      | nil => exact absurd hr (splitCommaCh_ne_nil rest)
      | cons t0 ts =>
        rw [hr] at ht
        rcases List.mem_cons.mp ht with rfl | h
        · intro hmem
          rcases List.mem_cons.mp hmem with h' | h'
          · exact hc h'.symm
          · exact ih t0 (by rw [hr]; exact List.mem_cons_self t0 ts) h'
        · exact ih t (by rw [hr]; exact List.mem_cons_of_mem t0 h)

theorem dropTrailing_sublist (p : α → Bool) (l : List α) :
    (dropTrailing p l).Sublist l := by
  induction l with
  | nil => simp [dropTrailing]
  | cons a as ih =>
    simp only [dropTrailing]
    cases h : dropTrailing p as with
    | nil =>
      by_cases hp : p a
      · rw [if_pos hp]
        exact List.nil_sublist _
      · rw [if_neg hp]
        exact (List.nil_sublist as).cons₂ a
    | cons b bs =>
      rw [h] at ih
      exact ih.cons₂ a

theorem head?_dropTrailing (p : α → Bool) (l : List α) (a : α)
    (h : (dropTrailing p l).head? = some a) : l.head? = some a := by
  cases l with
  | nil => simp [dropTrailing] at h
  | cons b bs =>
    simp only [dropTrailing] at h
    cases hd : dropTrailing p bs with
    | nil =>
      rw [hd] at h
      by_cases hp : p b
      · rw [if_pos hp] at h
        simp at h
      · rw [if_neg hp] at h
        simp at h
        simp [h]
    | cons c cs =>
      rw [hd] at h
      simp at h
      simp [h]

theorem head?_dropWhile_false (p : α → Bool) (l : List α) (a : α)
    (h : (l.dropWhile p).head? = some a) : p a = false := by
  induction l with
  | nil => simp [List.dropWhile] at h
  | cons b bs ih =>
    rw [List.dropWhile_cons] at h
    by_cases hp : p b
    · rw [if_pos hp] at h
      exact ih h
    · rw [if_neg hp] at h
      simp at h
      rw [← h]
      exact Bool.eq_false_iff.mpr hp

theorem getLast?_dropTrailing (p : α → Bool) (l : List α) (a : α)
    (h : (dropTrailing p l).getLast? = some a) : p a = false := by
  induction l with
  | nil => simp [dropTrailing] at h
  | cons b bs ih =>
    simp only [dropTrailing] at h
    cases hd : dropTrailing p bs with
    | nil =>
      rw [hd] at h
      by_cases hp : p b
      · rw [if_pos hp] at h
        simp at h
      · rw [if_neg hp] at h
        simp at h
        rw [← h]
        exact Bool.eq_false_iff.mpr hp
    | cons c cs =>
      rw [hd] at h
      rw [List.getLast?_cons_cons] at h
      exact ih (hd ▸ h)

theorem trim_head_not_space (l : List Char) (c : Char)
    (h : (trimSpaceCh l).head? = some c) : isGoSpace c = false :=
  head?_dropWhile_false _ _ _ (head?_dropTrailing _ _ _ h)

theorem trim_getLast_not_space (l : List Char) (c : Char)
    (h : (trimSpaceCh l).getLast? = some c) : isGoSpace c = false :=
  getLast?_dropTrailing _ _ _ h

theorem trim_subset (l : List Char) : ∀ c ∈ trimSpaceCh l, c ∈ l := by
  intro c hc
  exact (List.dropWhile_sublist isGoSpace).subset
    ((dropTrailing_sublist isGoSpace (l.dropWhile isGoSpace)).subset hc)

/-- C10: the artefacts filter trims each query token but compares the
stored object number untrimmed, so an artefact whose stored object
number starts or ends with White_Space, or contains a comma, is never
selected by any non-empty `objectNumbers` value. -/
theorem untrimmed_object_numbers_unreachable
    (results : GoSlice ArtefactDTO) (p n : String) (hp : p ≠ "")
    (hbad : (∃ c, n.data.head? = some c ∧ isGoSpace c = true)
          ∨ (∃ c, n.data.getLast? = some c ∧ isGoSpace c = true)
          ∨ ',' ∈ n.data) :
    ∀ a ∈ (artefactsFiltered results p).elems, a.ObjectNumber ≠ n := by
  intro a ha heq
  rw [elems_artefactsFiltered results p hp] at ha
  obtain ⟨-, hany⟩ := List.mem_filter.mp ha
  obtain ⟨t, ht, hteq⟩ := List.any_eq_true.mp hany
  have heq2 : a.ObjectNumber = t := beq_iff_eq.mp hteq
  obtain ⟨u, hu, rfl⟩ := List.mem_map.mp ht
  obtain ⟨pc, hpc, rfl⟩ := List.mem_map.mp hu
  have hn : n.data = trimSpaceCh pc := congrArg String.data (heq2.symm.trans heq).symm
  rcases hbad with ⟨c, hc, hsp⟩ | ⟨c, hc, hsp⟩ | hcm
  · rw [hn] at hc
    rw [trim_head_not_space pc c hc] at hsp
    exact Bool.noConfusion hsp
  · rw [hn] at hc
    rw [trim_getLast_not_space pc c hc] at hsp
    exact Bool.noConfusion hsp
  · rw [hn] at hcm
    exact splitCommaCh_no_comma p.data pc hpc (trim_subset pc ',' hcm)

/-- Witness for C10: an artefact stored with object number " X" is not
selected even when the query contains the very tokens " X" and "X";
the artefact stored as "x" is selected, and its object number differs
from the unreachable one. -/
theorem untrimmed_object_numbers_unreachable_witness :
    (sampleArtefact "x").ObjectNumber ≠ " X" :=
  untrimmed_object_numbers_unreachable
    (some [sampleArtefact "x", sampleArtefact " X"]) "x, X" " X"
    (by decide) (Or.inl ⟨' ', rfl, rfl⟩)
    (sampleArtefact "x") (List.Mem.head _)
